import Mathlib

/-!
Shallow embedding of the eagle-bank account-transaction core
(`src/services/accountService.ts`, `src/services/transactionService.ts`,
`src/controllers/transactionController.ts`, `src/db/index.ts`).

Modelling conventions:
* SQLite tables become Lean lists of rows in insertion order
  (`DBState.bank_accounts`, `DBState.transactions`).
* Money values (JS `number` used for amounts and balances) become exact
  rationals `ℚ`; ISO-8601 timestamp strings become `Nat` (their order is the
  order of the strings).
* `Math.random()` streams become explicit oracle functions passed to the
  identifier generators.
* The SQL transaction (`BEGIN` / `COMMIT` / `ROLLBACK`) in
  `createTransaction` is modelled by accumulating the writes in a pending
  copy of the state and publishing it only at `COMMIT`; a persistence
  failure at any write step (injected through the `failAt` oracle) takes the
  `catch` path of the source, which issues `ROLLBACK`, so the committed
  state is returned unchanged.
-/

namespace EagleBank

/-- Row of the `bank_accounts` table (`db/index.ts` migration): accountNumber
is the PRIMARY KEY; accountType and currency are stored as TEXT. -/
structure BankAccountRow where
  accountNumber : String
  sortCode : String
  name : String
  accountType : String
  balance : ℚ
  currency : String
  userId : String
  createdTimestamp : Nat
  updatedTimestamp : Nat
deriving DecidableEq, Repr

/-- Row of the `transactions` table as inserted by
`transactionService.createTransaction`. -/
structure TransactionRow where
  id : String
  accountId : String
  userId : String
  amount : ℚ
  currency : String
  type : String
  reference : Option String
  createdTimestamp : Nat
deriving DecidableEq, Repr

/-- The persistent store: both tables, rows kept in insertion order. -/
structure DBState where
  bank_accounts : List BankAccountRow
  transactions : List TransactionRow
deriving DecidableEq, Repr

/-- The empty database produced by the migration. -/
def emptyDB : DBState := ⟨[], []⟩

/-- Embedding of `db.get('SELECT * FROM bank_accounts WHERE accountNumber = ?')`:
the first row whose accountNumber matches. -/
def selectAccountRow (accountNumber : String) : List BankAccountRow → Option BankAccountRow
  | [] => none
  | r :: rs =>
    if r.accountNumber = accountNumber then some r
    else selectAccountRow accountNumber rs

/-- Embedding of `db.get('SELECT ... FROM transactions WHERE accountId = ? AND id = ?')`. -/
def selectTransactionRow (accountNumber transactionId : String) :
    List TransactionRow → Option TransactionRow
  | [] => none
  | t :: ts =>
    if t.accountId = accountNumber ∧ t.id = transactionId then some t
    else selectTransactionRow accountNumber transactionId ts

/-- Embedding of the `WHERE accountId = ?` filter of
`SELECT ... FROM transactions WHERE accountId = ?` (row order preserved). -/
def selectTransactionsOfAccount (accountNumber : String) :
    List TransactionRow → List TransactionRow
  | [] => []
  | t :: ts =>
    if t.accountId = accountNumber then t :: selectTransactionsOfAccount accountNumber ts
    else selectTransactionsOfAccount accountNumber ts

/-- Result type of `accountService.fetchAccountByAccountNumber`
(`BankAccountResponse | 'not-found' | 'forbidden'`). -/
inductive FetchAccountResult where
  | notFound
  | forbidden
  | found (account : BankAccountRow)
deriving DecidableEq, Repr

/-- Embedding of `accountService.fetchAccountByAccountNumber`: one SELECT for
the row, a second SELECT for the owner (`row ? row.userId : ''`), then the
ownership comparison. It performs no writes: the function does not return a
state, mirroring that the source only issues SELECT statements. -/
def fetchAccountByAccountNumber (db : DBState) (accountNumber userId : String) :
    FetchAccountResult :=
  match selectAccountRow accountNumber db.bank_accounts with
  | none => .notFound
  | some account =>
    let accountOwner : String :=
      match selectAccountRow accountNumber db.bank_accounts with
      | some row => row.userId
      | none => ""
    if accountOwner ≠ userId then .forbidden
    else .found account

/-- The digit alphabet of `accountService.generateAccountNumber`. -/
def accountDigits : List Char := ['0', '1', '2', '3', '4', '5', '6', '7', '8', '9']

/-- Embedding of `accountService.generateAccountNumber`: `'01'` plus six
characters drawn from the digit alphabet by the random oracle `r`
(`Math.floor(Math.random() * 10)` becomes `r i % 10`). The store is not an
argument: the source never consults it. -/
def generateAccountNumber (r : Fin 6 → Nat) : String :=
  "01" ++ String.mk ((List.finRange 6).map (fun i => accountDigits.getD (r i % 10) '0'))

/-- The 62-character alphabet of `transactionService.generateTransactionId`. -/
def transactionIdChars : List Char :=
  ['A','B','C','D','E','F','G','H','I','J','K','L','M','N','O','P','Q','R','S','T','U','V','W','X','Y','Z',
   'a','b','c','d','e','f','g','h','i','j','k','l','m','n','o','p','q','r','s','t','u','v','w','x','y','z',
   '0','1','2','3','4','5','6','7','8','9']

/-- Embedding of `transactionService.generateTransactionId`: `'tan-'` plus ten
characters drawn from the 62-character alphabet by the random oracle `r`. The
store is not an argument: the source never consults it. -/
def generateTransactionId (r : Fin 10 → Nat) : String :=
  "tan-" ++ String.mk ((List.finRange 10).map (fun i => transactionIdChars.getD (r i % 62) 'A'))

/-- Embedding of `accountService.createAccount`: generate a number, insert a
row with balance `0.00`, sortCode `'10-10-10'`, currency `'GBP'`. The
`bank_accounts` table declares `accountNumber TEXT PRIMARY KEY`, so an INSERT
with an already-present number is rejected by SQLite; the promise rejects and
the service throws, writing nothing — modelled by the `none` outcome. -/
def createAccount (db : DBState) (name accountType userId : String)
    (r : Fin 6 → Nat) (currentTimestamp : Nat) : Option BankAccountRow × DBState :=
  let accountNumber := generateAccountNumber r
  let row : BankAccountRow :=
    { accountNumber := accountNumber
      sortCode := "10-10-10"
      name := name
      accountType := accountType
      balance := 0
      currency := "GBP"
      userId := userId
      createdTimestamp := currentTimestamp
      updatedTimestamp := currentTimestamp }
  match selectAccountRow accountNumber db.bank_accounts with
  | some _ => (none, db)
  | none => (some row, { db with bank_accounts := db.bank_accounts ++ [row] })

/-- Request body shape received by the controller before Zod validation. -/
structure RawCreateTransactionBody where
  amount : ℚ
  currency : String
  type : String
  reference : Option String
deriving DecidableEq, Repr

/-- Embedding of the Zod schema `CreateTransactionRequestSchema` of
`transactionController.ts`: `amount` at least `0.01`, at most `10000.00`, a
multiple of `0.01` (the `step(0.01)` check: `amount * 100` is an integer),
`currency` in the `GBP` singleton enum, `type` in the deposit/withdrawal
enum. Parsing returns the validated body or fails. -/
def CreateTransactionRequestSchema (body : RawCreateTransactionBody) :
    Option RawCreateTransactionBody :=
  if 1/100 ≤ body.amount ∧ body.amount ≤ 10000 ∧ (body.amount * 100).den = 1
      ∧ body.currency = "GBP"
      ∧ (body.type = "deposit" ∨ body.type = "withdrawal")
  then some body else none

/-- The `CreateTransactionRequest` interface of `transactionModel.ts`. -/
structure CreateTransactionRequest where
  accountNumber : String
  amount : ℚ
  currency : String
  type : String
  reference : Option String
deriving DecidableEq, Repr

/-- The `TransactionResponse` interface of `transactionModel.ts`. -/
structure TransactionResponse where
  id : String
  amount : ℚ
  currency : String
  type : String
  reference : Option String
  userId : String
  createdTimestamp : Nat
deriving DecidableEq, Repr

/-- JS falsiness of `transactionData.reference || null` and of the conditional
spread `...(transactionData.reference && ..)`: the empty string is dropped. -/
def refOrNone : Option String → Option String
  | none => none
  | some s => if s = "" then none else some s

/-- Result type of `transactionService.createTransaction`
(`TransactionResponse | 'not-found' | 'forbidden' | 'insufficient-funds'`,
plus the thrown-error channel `internalError`). -/
inductive TxOutcome where
  | notFound
  | forbidden
  | insufficientFunds
  | internalError
  | success (resp : TransactionResponse)
deriving DecidableEq, Repr

/-- The `dbRun` write calls of `createTransaction` at which a persistence
failure can be injected: `BEGIN TRANSACTION`, the ledger INSERT, the balance
UPDATE, and `COMMIT`. -/
inductive WriteStep where
  | beginTx
  | insertTx
  | updateBal
  | commitTx
deriving DecidableEq, Repr

/-- The row inserted by `createTransaction`'s
`INSERT INTO transactions (id, accountId, userId, amount, currency, type,
reference, createdTimestamp)` (with `transactionData.reference || null`). -/
def ledgerRow (transactionData : CreateTransactionRequest)
    (accountNumber userId transactionId : String) (createdTimestamp : Nat) :
    TransactionRow :=
  { id := transactionId
    accountId := accountNumber
    userId := userId
    amount := transactionData.amount
    currency := transactionData.currency
    type := transactionData.type
    reference := refOrNone transactionData.reference
    createdTimestamp := createdTimestamp }

/-- The effect of `createTransaction`'s
`UPDATE bank_accounts SET balance = ?, updatedTimestamp = ? WHERE accountNumber = ?`
on the rows of the table. -/
def applyBalanceUpdate (accounts : List BankAccountRow) (accountNumber : String)
    (newBalance : ℚ) (createdTimestamp : Nat) : List BankAccountRow :=
  accounts.map (fun a =>
    if a.accountNumber = accountNumber then
      { a with balance := newBalance, updatedTimestamp := createdTimestamp }
    else a)

/-- The `TransactionResponse` object constructed by `createTransaction` on
success. -/
def transactionResponseOf (transactionData : CreateTransactionRequest)
    (userId transactionId : String) (createdTimestamp : Nat) : TransactionResponse :=
  { id := transactionId
    amount := transactionData.amount
    currency := transactionData.currency
    type := transactionData.type
    reference := refOrNone transactionData.reference
    userId := userId
    createdTimestamp := createdTimestamp }

/-- Embedding of `transactionService.createTransaction`. Control flow of the
source: authorize through `fetchAccountByAccountNumber`; `BEGIN TRANSACTION`;
compute the new balance (withdrawal aborts with `'insufficient-funds'` after
`ROLLBACK` when `account.balance < amount`; an invalid type throws after
`ROLLBACK`); INSERT the ledger row; UPDATE the account balance and
updatedTimestamp to the same `createdTimestamp`; `COMMIT`. Writes before
`COMMIT` live in a pending copy of the state; any injected failure takes the
source's `catch` path, which issues `ROLLBACK` and rethrows, returning the
committed state unchanged (`internalError`). The fresh id and the timestamp
are passed in as the oracles `transactionId` and `createdTimestamp`. -/
def createTransaction (failAt : Option WriteStep) (db : DBState)
    (transactionData : CreateTransactionRequest) (accountNumber userId : String)
    (transactionId : String) (createdTimestamp : Nat) : TxOutcome × DBState :=
  match fetchAccountByAccountNumber db accountNumber userId with
  | .notFound => (.notFound, db)
  | .forbidden => (.forbidden, db)
  | .found account =>
    if failAt = some .beginTx then (.internalError, db) else
    let write : ℚ → TxOutcome × DBState := fun newBalance =>
      if failAt = some .insertTx then (.internalError, db) else
      let pending1 : DBState :=
        { db with transactions := db.transactions ++
            [ledgerRow transactionData accountNumber userId transactionId createdTimestamp] }
      if failAt = some .updateBal then (.internalError, db) else
      let pending2 : DBState :=
        { pending1 with
          bank_accounts :=
            applyBalanceUpdate pending1.bank_accounts accountNumber newBalance createdTimestamp }
      if failAt = some .commitTx then (.internalError, db) else
      (.success (transactionResponseOf transactionData userId transactionId createdTimestamp),
        pending2)
    if transactionData.type = "deposit" then
      write (account.balance + transactionData.amount)
    else if transactionData.type = "withdrawal" then
      if account.balance < transactionData.amount then (.insufficientFunds, db)
      else write (account.balance - transactionData.amount)
    else (.internalError, db)

/-- HTTP-level outcome of `transactionController.createTransaction`: Zod
failures become 400 responses, the service's string tags map to 404/403/422,
thrown errors to 500, success to 201. -/
inductive HttpOutcome where
  | validationFailure
  | notFound
  | forbidden
  | insufficientFunds
  | internalError
  | created (resp : TransactionResponse)
deriving DecidableEq, Repr

/-- The `CreateTransactionRequest` object assembled by the controller from
the validated body and the path parameter (the conditional spread drops a
falsy reference). -/
def transactionDataOf (accountNumber : String) (validatedBody : RawCreateTransactionBody) :
    CreateTransactionRequest :=
  { accountNumber := accountNumber
    amount := validatedBody.amount
    currency := validatedBody.currency
    type := validatedBody.type
    reference := refOrNone validatedBody.reference }

/-- Embedding of `transactionController.createTransaction`: parse the body
with the Zod schema (a `ZodError` is caught and answered with 400 before the
service — and hence the balance read — is ever reached), call the service
with the assembled request, and map its result. -/
def controllerCreateTransaction (failAt : Option WriteStep) (db : DBState)
    (accountNumber userId : String) (body : RawCreateTransactionBody)
    (transactionId : String) (createdTimestamp : Nat) : HttpOutcome × DBState :=
  match CreateTransactionRequestSchema body with
  | none => (.validationFailure, db)
  | some validatedBody =>
    match createTransaction failAt db (transactionDataOf accountNumber validatedBody)
        accountNumber userId transactionId createdTimestamp with
    | (.notFound, db') => (.notFound, db')
    | (.forbidden, db') => (.forbidden, db')
    | (.insufficientFunds, db') => (.insufficientFunds, db')
    | (.internalError, db') => (.internalError, db')
    | (.success resp, db') => (.created resp, db')

/-- Mapping of a `transactions` row to a `TransactionResponse`, as done row by
row in `listAccountTransactions` and `fetchAccountTransactionByID`
(`reference: row.reference || undefined`). -/
def mapTransactionRow (row : TransactionRow) : TransactionResponse :=
  { id := row.id
    amount := row.amount
    currency := row.currency
    type := row.type
    reference := refOrNone row.reference
    userId := row.userId
    createdTimestamp := row.createdTimestamp }

/-- Result type of `transactionService.listAccountTransactions`. -/
inductive ListTxResult where
  | notFound
  | forbidden
  | ok (transactions : List TransactionResponse)
deriving DecidableEq, Repr

/-- SQLite contract of `ORDER BY createdTimestamp DESC` with no secondary
key: the output is a permutation of the selected rows whose timestamps are
non-increasing. The relative order of rows sharing a timestamp is left
undefined by SQLite, so the embedding only constrains the result through this
relation. -/
def SqlOrderByCreatedDesc (rows result : List TransactionRow) : Prop :=
  rows.Perm result ∧
  result.Pairwise (fun a b => b.createdTimestamp ≤ a.createdTimestamp)

/-- Embedding of `transactionService.listAccountTransactions`: authorize
through `fetchAccountByAccountNumber`, run
`SELECT ... WHERE accountId = ? ORDER BY createdTimestamp DESC`, and map the
rows. The database's choice of row order is modelled by the `sorter` oracle;
runs of the source correspond to sorters satisfying `SqlOrderByCreatedDesc`
on the selected rows. -/
def listAccountTransactions (sorter : List TransactionRow → List TransactionRow)
    (db : DBState) (accountNumber userId : String) : ListTxResult :=
  match fetchAccountByAccountNumber db accountNumber userId with
  | .notFound => .notFound
  | .forbidden => .forbidden
  | .found _ =>
    let rows := sorter (selectTransactionsOfAccount accountNumber db.transactions)
    .ok (rows.map mapTransactionRow)

/-- Result type of `transactionService.fetchAccountTransactionByID`. -/
inductive GetTxResult where
  | notFound
  | forbidden
  | found (transaction : TransactionResponse)
deriving DecidableEq, Repr

/-- Embedding of `transactionService.fetchAccountTransactionByID`: authorize,
then `SELECT ... WHERE accountId = ? AND id = ?`; a missing row (including a
transaction id that exists only under a different account) is `'not-found'`. -/
def fetchAccountTransactionByID (db : DBState)
    (accountNumber transactionId userId : String) : GetTxResult :=
  match fetchAccountByAccountNumber db accountNumber userId with
  | .notFound => .notFound
  | .forbidden => .forbidden
  | .found _ =>
    match selectTransactionRow accountNumber transactionId db.transactions with
    | none => .notFound
    | some row => .found (mapTransactionRow row)

/-- One `key = ?` item of the dynamic SET clause built by
`updateAccountByAccountNumber`. -/
inductive SetClause where
  | name (value : String)
  | accountType (value : String)
  | updatedTimestamp (ts : Nat)
deriving DecidableEq, Repr

/-- Application of one SET item to a `bank_accounts` row. -/
def applySetClause (row : BankAccountRow) : SetClause → BankAccountRow
  | .name v => { row with name := v }
  | .accountType v => { row with accountType := v }
  | .updatedTimestamp ts => { row with updatedTimestamp := ts }

/-- Application of a whole SET clause, left to right. -/
def applySetClauses (row : BankAccountRow) (clauses : List SetClause) : BankAccountRow :=
  clauses.foldl applySetClause row

/-- The clause list built by `updateAccountByAccountNumber`'s loop over
`Object.entries(updateData)`: keys `'name'` and `'accountType'` become SET
items in payload order, every other key is skipped. -/
def nameTypeClauses (updateData : List (String × String)) : List SetClause :=
  updateData.filterMap (fun kv =>
    if kv.1 = "name" then some (SetClause.name kv.2)
    else if kv.1 = "accountType" then some (SetClause.accountType kv.2)
    else none)

/-- Result type of `accountService.updateAccountByAccountNumber`
(`BankAccountResponse | 'not-found' | 'forbidden'` plus the thrown-error
channel). -/
inductive UpdateAccountResult where
  | notFound
  | forbidden
  | internalError
  | ok (account : BankAccountRow)
deriving DecidableEq, Repr

/-- Embedding of `accountService.updateAccountByAccountNumber`: authorize;
iterate over the payload's entries keeping only the keys `'name'` and
`'accountType'`; append the `updatedTimestamp` assignment; the
`setClauses.length === 0` early return; otherwise run
`UPDATE bank_accounts SET ... WHERE accountNumber = ?` and re-fetch. The
payload is an arbitrary key/value object (`Object.entries(updateData)`),
modelled as an association list. -/
def updateAccountByAccountNumber (db : DBState) (accountNumber : String)
    (updateData : List (String × String)) (userId : String) (ts : Nat) :
    UpdateAccountResult × DBState :=
  match fetchAccountByAccountNumber db accountNumber userId with
  | .notFound => (.notFound, db)
  | .forbidden => (.forbidden, db)
  | .found existingAccount =>
    let setClauses : List SetClause :=
      nameTypeClauses updateData ++ [SetClause.updatedTimestamp ts]
    if setClauses.length = 0 then (.ok existingAccount, db)
    else
      let db' : DBState :=
        { db with
          bank_accounts := db.bank_accounts.map (fun r =>
            if r.accountNumber = accountNumber then applySetClauses r setClauses
            else r) }
      match fetchAccountByAccountNumber db' accountNumber userId with
      | .notFound => (.internalError, db')
      | .forbidden => (.internalError, db')
      | .found updatedAccount => (.ok updatedAccount, db')

/-- One state-mutating operation of the core, with all oracles (random
streams, timestamps, injected persistence failures) made explicit. The read
paths (`fetchAccountByAccountNumber`, `listAccountTransactions`,
`fetchAccountTransactionByID`) return no state and need no operation. -/
inductive Op where
  | createAccount (name accountType userId : String) (r : Fin 6 → Nat) (ts : Nat)
  | createTransaction (accountNumber userId : String) (body : RawCreateTransactionBody)
      (failAt : Option WriteStep) (transactionId : String) (ts : Nat)
  | updateAccount (accountNumber : String) (updateData : List (String × String))
      (userId : String) (ts : Nat)

/-- State transition of one operation (the state component of the
corresponding controller/service call). -/
def step (db : DBState) : Op → DBState
  | .createAccount name accountType userId r ts =>
      (createAccount db name accountType userId r ts).2
  | .createTransaction accountNumber userId body failAt transactionId ts =>
      (controllerCreateTransaction failAt db accountNumber userId body transactionId ts).2
  | .updateAccount accountNumber updateData userId ts =>
      (updateAccountByAccountNumber db accountNumber updateData userId ts).2

/-- The state after running a sequence of operations from the fresh database. -/
def runOps (ops : List Op) : DBState := ops.foldl step emptyDB

/-- Sum of the amounts of the deposit ledger entries of one account. -/
def sumDeposits (txs : List TransactionRow) (accountNumber : String) : ℚ :=
  ((txs.filter (fun t => decide (t.accountId = accountNumber ∧ t.type = "deposit"))).map
    (fun t => t.amount)).sum

/-- Sum of the amounts of the withdrawal ledger entries of one account. -/
def sumWithdrawals (txs : List TransactionRow) (accountNumber : String) : ℚ :=
  ((txs.filter (fun t => decide (t.accountId = accountNumber ∧ t.type = "withdrawal"))).map
    (fun t => t.amount)).sum

/-- Internal well-formedness of a database state: account numbers are unique
(the PRIMARY KEY), every ledger entry points at an existing account, every
balance is the deposit sum minus the withdrawal sum of its ledger, and no
balance is negative. -/
structure Inv (db : DBState) : Prop where
  nodupAccounts : (db.bank_accounts.map (fun a => a.accountNumber)).Nodup
  refIntegrity : ∀ t ∈ db.transactions,
    ∃ a ∈ db.bank_accounts, a.accountNumber = t.accountId
  conservation : ∀ a ∈ db.bank_accounts,
    a.balance = sumDeposits db.transactions a.accountNumber
      - sumWithdrawals db.transactions a.accountNumber
  nonneg : ∀ a ∈ db.bank_accounts, 0 ≤ a.balance

/-- Balance of an account as seen by a subsequent read of the store. -/
def balanceOf (db : DBState) (accountNumber : String) : Option ℚ :=
  (selectAccountRow accountNumber db.bank_accounts).map (fun r => r.balance)

/-- Value the `name` column holds after a SET clause list, starting from `d`
(the last `name = ?` item wins, as in SQL left-to-right assignment). -/
def lastNameClause (clauses : List SetClause) (d : String) : String :=
  clauses.foldl (fun acc c => match c with | .name v => v | _ => acc) d

/-- Value the `accountType` column holds after a SET clause list. -/
def lastAccountTypeClause (clauses : List SetClause) (d : String) : String :=
  clauses.foldl (fun acc c => match c with | .accountType v => v | _ => acc) d

/-- Value the `updatedTimestamp` column holds after a SET clause list. -/
def lastTimestampClause (clauses : List SetClause) (d : Nat) : Nat :=
  clauses.foldl (fun acc c => match c with | .updatedTimestamp v => v | _ => acc) d

/-! Concrete sample data used by witnesses and counterexamples -/

/-- Sample account owned by user `usr-1` with balance `50.00`. -/
def acct1 : BankAccountRow :=
  { accountNumber := "01000001"
    sortCode := "10-10-10"
    name := "Alice"
    accountType := "personal"
    balance := 50
    currency := "GBP"
    userId := "usr-1"
    createdTimestamp := 1
    updatedTimestamp := 1 }

/-- Sample store holding only `acct1`. -/
def db1 : DBState := ⟨[acct1], []⟩

/-- Sample ledger row belonging to a different account than `acct1`. -/
def txOther : TransactionRow :=
  { id := "tan-XXXXXXXXXX"
    accountId := "01999999"
    userId := "usr-2"
    amount := 5
    currency := "GBP"
    type := "deposit"
    reference := none
    createdTimestamp := 3 }

/-- Sample store for the cross-account transaction lookup. -/
def db7 : DBState := ⟨[acct1], [txOther]⟩

/-- Two ledger rows of `acct1` sharing a creation timestamp. -/
def tx1 : TransactionRow :=
  { id := "tan-1111111111"
    accountId := "01000001"
    userId := "usr-1"
    amount := 10
    currency := "GBP"
    type := "deposit"
    reference := none
    createdTimestamp := 5 }

def tx2 : TransactionRow :=
  { id := "tan-2222222222"
    accountId := "01000001"
    userId := "usr-1"
    amount := 20
    currency := "GBP"
    type := "deposit"
    reference := none
    createdTimestamp := 5 }

/-- Sample store with two equal-timestamp ledger rows, inserted `tx1` then
`tx2`. -/
def db9 : DBState := ⟨[acct1], [tx1, tx2]⟩

/-- Random stream under which `generateAccountNumber` emits `01123456`. -/
def rStreamC6 : Fin 6 → Nat := fun i => i.val + 1

/-- Sample account already holding the number `01123456`. -/
def acct6 : BankAccountRow :=
  { accountNumber := "01123456"
    sortCode := "10-10-10"
    name := "Bob"
    accountType := "personal"
    balance := 0
    currency := "GBP"
    userId := "usr-1"
    createdTimestamp := 1
    updatedTimestamp := 1 }

/-- Sample store already containing account number `01123456`. -/
def db6 : DBState := ⟨[acct6], []⟩

/-- Sample ledger row whose id is the one `generateTransactionId` emits on the
all-zero stream. -/
def tx6 : TransactionRow :=
  { id := "tan-AAAAAAAAAA"
    accountId := "01123456"
    userId := "usr-1"
    amount := 5
    currency := "GBP"
    type := "deposit"
    reference := none
    createdTimestamp := 1 }

/-- Sample store already containing transaction id `tan-AAAAAAAAAA`. -/
def db6b : DBState := ⟨[acct6], [tx6]⟩

/-- Operation sequence: create an account (stream of ones, so number
`01111111`), then deposit `50.00`. -/
def opsC3 : List Op :=
  [Op.createAccount "Alice" "personal" "usr-1" (fun _ => 1) 1,
   Op.createTransaction "01111111" "usr-1" ⟨50, "GBP", "deposit", none⟩ none
     "tan-0000000000" 2]

/-- The account row reached by `opsC3`. -/
def rowC3 : BankAccountRow :=
  { accountNumber := "01111111"
    sortCode := "10-10-10"
    name := "Alice"
    accountType := "personal"
    balance := 50
    currency := "GBP"
    userId := "usr-1"
    createdTimestamp := 1
    updatedTimestamp := 2 }

/-- Operation sequence: create an account, then deposit `6000.00` twice; each
deposit passes validation (amount within `(0, 10000]`) yet the resulting
balance is `12000.00`. -/
def opsC5 : List Op :=
  [Op.createAccount "Alice" "personal" "usr-1" (fun _ => 1) 1,
   Op.createTransaction "01111111" "usr-1" ⟨6000, "GBP", "deposit", none⟩ none
     "tan-0000000001" 2,
   Op.createTransaction "01111111" "usr-1" ⟨6000, "GBP", "deposit", none⟩ none
     "tan-0000000002" 3]

/-! Lemmas about the row-selection helpers -/

theorem selectAccountRow_eq_some {n : String} :
    ∀ {l : List BankAccountRow} {r : BankAccountRow},
      selectAccountRow n l = some r → r ∈ l ∧ r.accountNumber = n := by
  intro l
  induction l with
  | nil => intro r h; simp [selectAccountRow] at h
  | cons a l ih =>
    intro r h
    by_cases ha : a.accountNumber = n
    · simp [selectAccountRow, ha] at h
      subst h
      exact ⟨List.mem_cons_self a l, ha⟩
    · simp [selectAccountRow, ha] at h
      rcases ih h with ⟨hmem, hnum⟩
      exact ⟨List.mem_cons_of_mem a hmem, hnum⟩

theorem selectAccountRow_eq_none {n : String} :
    ∀ {l : List BankAccountRow},
      selectAccountRow n l = none ↔ ∀ r ∈ l, r.accountNumber ≠ n := by
  intro l
  induction l with
  | nil => simp [selectAccountRow]
  | cons a l ih =>
    by_cases ha : a.accountNumber = n
    · simp [selectAccountRow, ha]
    · simp [selectAccountRow, ha, ih]

theorem selectAccountRow_of_mem {n : String} :
    ∀ {l : List BankAccountRow} {a : BankAccountRow},
      (l.map (fun r => r.accountNumber)).Nodup → a ∈ l → a.accountNumber = n →
      selectAccountRow n l = some a := by
  intro l
  induction l with
  | nil => intro a _ h; simp at h
  | cons b l ih =>
    intro a hnd hmem hnum
    simp at hnd
    rcases List.mem_cons.mp hmem with hab | hmem'
    · subst hab
      simp [selectAccountRow, hnum]
    · by_cases hb : b.accountNumber = n
      · exfalso
        exact hnd.1 a hmem' (by rw [hnum, hb])
      · simp [selectAccountRow, hb]
        exact ih hnd.2 hmem' hnum

/-! Inversion lemmas for the authorization gate -/

theorem fetchAccountByAccountNumber_found_iff {db : DBState} {n u : String}
    {a : BankAccountRow} :
    fetchAccountByAccountNumber db n u = .found a ↔
      selectAccountRow n db.bank_accounts = some a ∧ a.userId = u := by
  unfold fetchAccountByAccountNumber
  rcases hsel : selectAccountRow n db.bank_accounts with _ | row
  · simp
  · by_cases hu : row.userId = u
    · simp [hsel, hu]
      rintro rfl
      exact hu
    · simp [hsel, hu]
      intro h1 h2
      rw [← h1] at h2
      exact hu h2

theorem fetchAccountByAccountNumber_notFound_iff {db : DBState} {n u : String} :
    fetchAccountByAccountNumber db n u = .notFound ↔
      selectAccountRow n db.bank_accounts = none := by
  unfold fetchAccountByAccountNumber
  rcases hsel : selectAccountRow n db.bank_accounts with _ | row
  · simp
  · by_cases hu : row.userId = u <;> simp [hsel, hu]

theorem fetchAccountByAccountNumber_forbidden_iff {db : DBState} {n u : String} :
    fetchAccountByAccountNumber db n u = .forbidden ↔
      ∃ row, selectAccountRow n db.bank_accounts = some row ∧ row.userId ≠ u := by
  unfold fetchAccountByAccountNumber
  rcases hsel : selectAccountRow n db.bank_accounts with _ | row
  · simp
  · by_cases hu : row.userId = u <;> simp [hsel, hu]

/-! Lemmas about the ledger sums -/

theorem sumDeposits_append (txs : List TransactionRow) (t : TransactionRow) (n : String) :
    sumDeposits (txs ++ [t]) n =
      sumDeposits txs n + (if t.accountId = n ∧ t.type = "deposit" then t.amount else 0) := by
  unfold sumDeposits
  rw [List.filter_append]
  by_cases h : t.accountId = n ∧ t.type = "deposit"
  · simp [h]
  · simp [h]

theorem sumWithdrawals_append (txs : List TransactionRow) (t : TransactionRow) (n : String) :
    sumWithdrawals (txs ++ [t]) n =
      sumWithdrawals txs n +
        (if t.accountId = n ∧ t.type = "withdrawal" then t.amount else 0) := by
  unfold sumWithdrawals
  rw [List.filter_append]
  by_cases h : t.accountId = n ∧ t.type = "withdrawal"
  · simp [h]
  · simp [h]

theorem sumDeposits_eq_zero {txs : List TransactionRow} {n : String}
    (h : ∀ t ∈ txs, t.accountId ≠ n) : sumDeposits txs n = 0 := by
  unfold sumDeposits
  have hnil : txs.filter (fun t => decide (t.accountId = n ∧ t.type = "deposit")) = [] := by
    apply List.filter_eq_nil_iff.mpr
    intro t ht
    simp
    intro hacc
    exact absurd hacc (h t ht)
  rw [hnil]
  simp

theorem sumWithdrawals_eq_zero {txs : List TransactionRow} {n : String}
    (h : ∀ t ∈ txs, t.accountId ≠ n) : sumWithdrawals txs n = 0 := by
  unfold sumWithdrawals
  have hnil : txs.filter (fun t => decide (t.accountId = n ∧ t.type = "withdrawal")) = [] := by
    apply List.filter_eq_nil_iff.mpr
    intro t ht
    simp
    intro hacc
    exact absurd hacc (h t ht)
  rw [hnil]
  simp

/-! Lemmas about the balance UPDATE -/

theorem applyBalanceUpdate_numbers (l : List BankAccountRow) (n : String)
    (nb : ℚ) (ts : Nat) :
    (applyBalanceUpdate l n nb ts).map (fun a => a.accountNumber) =
      l.map (fun a => a.accountNumber) := by
  unfold applyBalanceUpdate
  rw [List.map_map]
  apply List.map_congr_left
  intro a _
  by_cases h : a.accountNumber = n <;> simp [h]

theorem selectAccountRow_applyBalanceUpdate (l : List BankAccountRow) (n : String)
    (nb : ℚ) (ts : Nat) :
    selectAccountRow n (applyBalanceUpdate l n nb ts) =
      (selectAccountRow n l).map
        (fun r => { r with balance := nb, updatedTimestamp := ts }) := by
  induction l with
  | nil => simp [selectAccountRow, applyBalanceUpdate]
  | cons a l ih =>
    by_cases h : a.accountNumber = n
    · simp [applyBalanceUpdate, selectAccountRow, h]
    · simpa [applyBalanceUpdate, selectAccountRow, h] using ih

/-! Characterization of `createTransaction` -/

/-- Every run of `createTransaction` either leaves the committed store
untouched and does not report success (authorization failures, insufficient
funds, the invalid-type safeguard, and every injected persistence failure),
or reports success with no injected failure, an authorized account, a
deposit/withdrawal balance computation, and exactly the two writes published
together. -/
theorem createTransaction_spec (failAt : Option WriteStep) (db : DBState)
    (td : CreateTransactionRequest) (n u txid : String) (ts : Nat) :
    ((createTransaction failAt db td n u txid ts).2 = db ∧
      ∀ resp, (createTransaction failAt db td n u txid ts).1 ≠ .success resp) ∨
    (failAt = none ∧
      ∃ account newBalance,
        fetchAccountByAccountNumber db n u = .found account ∧
        ((td.type = "deposit" ∧ newBalance = account.balance + td.amount) ∨
         (td.type = "withdrawal" ∧ td.amount ≤ account.balance ∧
           newBalance = account.balance - td.amount)) ∧
        createTransaction failAt db td n u txid ts =
          (.success (transactionResponseOf td u txid ts),
           ⟨applyBalanceUpdate db.bank_accounts n newBalance ts,
            db.transactions ++ [ledgerRow td n u txid ts]⟩)) := by
  rcases hf : fetchAccountByAccountNumber db n u with _ | _ | account
  · left
    simp [createTransaction, hf]
  · left
    simp [createTransaction, hf]
  · rcases failAt with _ | s
    · by_cases hd : td.type = "deposit"
      · right
        refine ⟨rfl, account, account.balance + td.amount, rfl, Or.inl ⟨hd, rfl⟩, ?_⟩
        simp [createTransaction, hf, hd]
      · by_cases hw : td.type = "withdrawal"
        · by_cases hlt : account.balance < td.amount
          · left
            simp [createTransaction, hf, hd, hw, hlt]
          · right
            refine ⟨rfl, account, account.balance - td.amount, rfl,
              Or.inr ⟨hw, not_lt.mp hlt, rfl⟩, ?_⟩
            simp [createTransaction, hf, hd, hw, hlt]
        · left
          simp [createTransaction, hf, hd, hw]
    · left
      cases s <;>
        · simp only [createTransaction, hf]
          split_ifs <;> simp_all

/-! Characterization of the dynamic SET clause -/

/-- A SET clause list only ever writes the `name`, `accountType` and
`updatedTimestamp` columns of a row, each ending at its last assigned
value. -/
theorem applySetClauses_eq (clauses : List SetClause) :
    ∀ r : BankAccountRow,
      applySetClauses r clauses =
        { r with
          name := lastNameClause clauses r.name
          accountType := lastAccountTypeClause clauses r.accountType
          updatedTimestamp := lastTimestampClause clauses r.updatedTimestamp } := by
  induction clauses with
  | nil => intro r; rfl
  | cons c cs ih =>
    intro r
    cases c <;>
      simpa [applySetClauses, applySetClause, lastNameClause, lastAccountTypeClause,
        lastTimestampClause] using ih _

theorem lastNameClause_append_ts (clauses : List SetClause) (ts : Nat) (d : String) :
    lastNameClause (clauses ++ [SetClause.updatedTimestamp ts]) d =
      lastNameClause clauses d := by
  simp [lastNameClause]

theorem lastAccountTypeClause_append_ts (clauses : List SetClause) (ts : Nat) (d : String) :
    lastAccountTypeClause (clauses ++ [SetClause.updatedTimestamp ts]) d =
      lastAccountTypeClause clauses d := by
  simp [lastAccountTypeClause]

theorem lastTimestampClause_append_ts (clauses : List SetClause) (ts : Nat) (d : Nat) :
    lastTimestampClause (clauses ++ [SetClause.updatedTimestamp ts]) d = ts := by
  simp [lastTimestampClause]

/-- Filtering the payload down to its `name`/`accountType` entries does not
change the clause list the service builds: all other keys are skipped. -/
theorem nameTypeClauses_filter (updateData : List (String × String)) :
    nameTypeClauses (updateData.filter (fun kv =>
      decide (kv.1 = "name" ∨ kv.1 = "accountType"))) = nameTypeClauses updateData := by
  induction updateData with
  | nil => rfl
  | cons kv l ih =>
    by_cases h1 : kv.1 = "name"
    · simp [nameTypeClauses, List.filter, h1] at ih ⊢
      exact ih
    · by_cases h2 : kv.1 = "accountType"
      · simp [nameTypeClauses, List.filter, h1, h2] at ih ⊢
        exact ih
      · simp [nameTypeClauses, List.filter, h1, h2] at ih ⊢
        exact ih

/-- State effect of an authorized `updateAccountByAccountNumber` call: the
matched row gets its `name`/`accountType` columns from the last matching
payload entries (or keeps them) and its `updatedTimestamp` set to `ts`
unconditionally — the `setClauses.length === 0` early return is unreachable
because the timestamp item has already been appended; every other row, every
other column and the ledger are untouched. -/
theorem updateAccountByAccountNumber_state (db : DBState) (n : String)
    (updateData : List (String × String)) (u : String) (ts : Nat)
    (account : BankAccountRow)
    (hf : fetchAccountByAccountNumber db n u = .found account) :
    (updateAccountByAccountNumber db n updateData u ts).2 =
      { db with
        bank_accounts := db.bank_accounts.map (fun r =>
          if r.accountNumber = n then
            { r with
              name := lastNameClause (nameTypeClauses updateData) r.name
              accountType :=
                lastAccountTypeClause (nameTypeClauses updateData) r.accountType
              updatedTimestamp := ts }
          else r) } := by
  unfold updateAccountByAccountNumber
  rw [hf]
  have hlen : (nameTypeClauses updateData ++ [SetClause.updatedTimestamp ts]).length ≠ 0 := by
    simp
  simp only [hlen, if_neg, ite_false]
  have hrow : ∀ r : BankAccountRow,
      applySetClauses r (nameTypeClauses updateData ++ [SetClause.updatedTimestamp ts]) =
        { r with
          name := lastNameClause (nameTypeClauses updateData) r.name
          accountType := lastAccountTypeClause (nameTypeClauses updateData) r.accountType
          updatedTimestamp := ts } := by
    intro r
    rw [applySetClauses_eq, lastNameClause_append_ts, lastAccountTypeClause_append_ts,
      lastTimestampClause_append_ts]
  rcases hre : fetchAccountByAccountNumber
      ({ db with
        bank_accounts := db.bank_accounts.map (fun r =>
          if r.accountNumber = n then
            applySetClauses r (nameTypeClauses updateData ++ [SetClause.updatedTimestamp ts])
          else r) } : DBState) n u with _ | _ | updated <;>
    · simp only [hre]
      congr 1
      apply List.map_congr_left
      intro r _
      by_cases h : r.accountNumber = n <;> simp [h, hrow]

/-! Preservation of the store invariant -/

theorem CreateTransactionRequestSchema_some {body v : RawCreateTransactionBody}
    (h : CreateTransactionRequestSchema body = some v) :
    v = body ∧ 1/100 ≤ body.amount ∧ body.amount ≤ 10000 ∧ (body.amount * 100).den = 1 ∧
      body.currency = "GBP" ∧ (body.type = "deposit" ∨ body.type = "withdrawal") := by
  unfold CreateTransactionRequestSchema at h
  split_ifs at h with hc
  · cases h
    exact ⟨rfl, hc.1, hc.2.1, hc.2.2.1, hc.2.2.2.1, hc.2.2.2.2⟩

theorem inv_emptyDB : Inv emptyDB := by
  constructor <;> simp [emptyDB]

theorem mem_image_balanceUpdate {l : List BankAccountRow} {n : String} {nb : ℚ}
    {ts : Nat} {a' : BankAccountRow} (h : a' ∈ applyBalanceUpdate l n nb ts) :
    ∃ a ∈ l, a' = if a.accountNumber = n
      then { a with balance := nb, updatedTimestamp := ts } else a := by
  rcases List.mem_map.mp h with ⟨a, ha, heq⟩
  exact ⟨a, ha, heq.symm⟩

theorem image_mem_balanceUpdate {l : List BankAccountRow} {n : String} (nb : ℚ)
    (ts : Nat) {a : BankAccountRow} (h : a ∈ l) :
    ∃ a' ∈ applyBalanceUpdate l n nb ts, a'.accountNumber = a.accountNumber := by
  refine ⟨_, List.mem_map_of_mem _ h, ?_⟩
  by_cases hn : a.accountNumber = n <;> simp [hn]

/-- Invariant preservation through the atomic write pair of a successful
`createTransaction`. -/
theorem inv_apply_success {db : DBState} (hI : Inv db) (account : BankAccountRow)
    (newBalance : ℚ) (td : CreateTransactionRequest) (n u txid : String) (ts : Nat)
    (hf : fetchAccountByAccountNumber db n u = .found account)
    (hamount : 0 < td.amount)
    (hbal : (td.type = "deposit" ∧ newBalance = account.balance + td.amount) ∨
            (td.type = "withdrawal" ∧ td.amount ≤ account.balance ∧
              newBalance = account.balance - td.amount)) :
    Inv ⟨applyBalanceUpdate db.bank_accounts n newBalance ts,
         db.transactions ++ [ledgerRow td n u txid ts]⟩ := by
  rcases fetchAccountByAccountNumber_found_iff.mp hf with ⟨hsel, huid⟩
  rcases selectAccountRow_eq_some hsel with ⟨haccmem, haccnum⟩
  have huniq : ∀ a ∈ db.bank_accounts, a.accountNumber = n → a = account := by
    intro a ha hn
    exact List.inj_on_of_nodup_map hI.nodupAccounts ha haccmem (by rw [hn, haccnum])
  constructor
  · show ((applyBalanceUpdate db.bank_accounts n newBalance ts).map
      (fun a => a.accountNumber)).Nodup
    rw [applyBalanceUpdate_numbers]
    exact hI.nodupAccounts
  · intro t ht
    rcases List.mem_append.mp ht with hold | hnew
    · rcases hI.refIntegrity t hold with ⟨a, ha, hnum⟩
      rcases image_mem_balanceUpdate newBalance ts ha with ⟨a', ha', hnum'⟩
      exact ⟨a', ha', by rw [hnum', hnum]⟩
    · rcases image_mem_balanceUpdate newBalance ts haccmem with ⟨a', ha', hnum'⟩
      refine ⟨a', ha', ?_⟩
      simp only [List.mem_singleton] at hnew
      subst hnew
      show a'.accountNumber = n
      rw [hnum', haccnum]
  · intro a' ha'
    rcases mem_image_balanceUpdate ha' with ⟨a, ha, heq⟩
    by_cases hn : a.accountNumber = n
    · have haeq : a = account := huniq a ha hn
      subst haeq
      rw [if_pos hn] at heq
      subst heq
      show newBalance =
        sumDeposits (db.transactions ++ [ledgerRow td n u txid ts]) a.accountNumber
          - sumWithdrawals (db.transactions ++ [ledgerRow td n u txid ts]) a.accountNumber
      rw [sumDeposits_append, sumWithdrawals_append]
      have hcons := hI.conservation a ha
      rcases hbal with ⟨hty, hnb⟩ | ⟨hty, hle, hnb⟩
      · simp only [ledgerRow, hn, hty]
        simp
        rw [hnb, hcons, hn]
        ring
      · simp only [ledgerRow, hn, hty]
        simp
        rw [hnb, hcons, hn]
        ring
    · rw [if_neg hn] at heq
      rw [heq]
      show a.balance =
        sumDeposits (db.transactions ++ [ledgerRow td n u txid ts]) a.accountNumber
          - sumWithdrawals (db.transactions ++ [ledgerRow td n u txid ts]) a.accountNumber
      rw [sumDeposits_append, sumWithdrawals_append]
      have hc1 : ¬((ledgerRow td n u txid ts).accountId = a.accountNumber
          ∧ (ledgerRow td n u txid ts).type = "deposit") := by
        intro hc
        exact hn ((show n = a.accountNumber from hc.1).symm)
      have hc2 : ¬((ledgerRow td n u txid ts).accountId = a.accountNumber
          ∧ (ledgerRow td n u txid ts).type = "withdrawal") := by
        intro hc
        exact hn ((show n = a.accountNumber from hc.1).symm)
      rw [if_neg hc1, if_neg hc2]
      simpa using hI.conservation a ha
  · intro a' ha'
    rcases mem_image_balanceUpdate ha' with ⟨a, ha, heq⟩
    by_cases hn : a.accountNumber = n
    · have haeq : a = account := huniq a ha hn
      subst haeq
      rw [if_pos hn] at heq
      subst heq
      show (0 : ℚ) ≤ newBalance
      have hnn := hI.nonneg a ha
      rcases hbal with ⟨_, hnb⟩ | ⟨_, hle, hnb⟩
      · rw [hnb]; linarith
      · rw [hnb]; linarith
    · rw [if_neg hn] at heq
      rw [heq]
      exact hI.nonneg a ha

/-- Invariant preservation through any `bank_accounts` rewrite that keeps
each row's accountNumber and balance (metadata updates). -/
theorem inv_map_metadata {db : DBState} (hI : Inv db)
    (g : BankAccountRow → BankAccountRow)
    (hnum : ∀ r, (g r).accountNumber = r.accountNumber)
    (hbalp : ∀ r, (g r).balance = r.balance) :
    Inv { db with bank_accounts := db.bank_accounts.map g } := by
  constructor
  · show ((db.bank_accounts.map g).map (fun a => a.accountNumber)).Nodup
    rw [List.map_map]
    have : ((fun a => a.accountNumber) ∘ g) = fun a : BankAccountRow => a.accountNumber := by
      funext r
      exact hnum r
    rw [this]
    exact hI.nodupAccounts
  · intro t ht
    rcases hI.refIntegrity t ht with ⟨a, ha, hn⟩
    exact ⟨g a, List.mem_map_of_mem g ha, by rw [hnum a, hn]⟩
  · intro a' ha'
    rcases List.mem_map.mp ha' with ⟨a, ha, heq⟩
    subst heq
    rw [hnum a, hbalp a]
    exact hI.conservation a ha
  · intro a' ha'
    rcases List.mem_map.mp ha' with ⟨a, ha, heq⟩
    subst heq
    rw [hbalp a]
    exact hI.nonneg a ha

/-- Invariant preservation through the INSERT of a fresh zero-balance account
row. -/
theorem inv_append_fresh {db : DBState} (hI : Inv db) (row : BankAccountRow)
    (hfresh : ∀ a ∈ db.bank_accounts, a.accountNumber ≠ row.accountNumber)
    (hzero : row.balance = 0) :
    Inv { db with bank_accounts := db.bank_accounts ++ [row] } := by
  have hnotx : ∀ t ∈ db.transactions, t.accountId ≠ row.accountNumber := by
    intro t ht hc
    rcases hI.refIntegrity t ht with ⟨a, ha, hn⟩
    exact hfresh a ha (by rw [hn, hc])
  constructor
  · show ((db.bank_accounts ++ [row]).map (fun a => a.accountNumber)).Nodup
    rw [List.map_append, List.nodup_append]
    refine ⟨hI.nodupAccounts, by simp, ?_⟩
    intro x hx
    simp only [List.map_cons, List.map_nil, List.mem_singleton]
    rcases List.mem_map.mp hx with ⟨a, ha, heq⟩
    intro hc
    exact hfresh a ha (by rw [← heq] at hc; exact hc)
  · intro t ht
    rcases hI.refIntegrity t ht with ⟨a, ha, hn⟩
    exact ⟨a, List.mem_append_left _ ha, hn⟩
  · intro a ha
    rcases List.mem_append.mp ha with hold | hnew
    · exact hI.conservation a hold
    · simp only [List.mem_singleton] at hnew
      subst hnew
      rw [hzero, sumDeposits_eq_zero hnotx, sumWithdrawals_eq_zero hnotx]
      ring
  · intro a ha
    rcases List.mem_append.mp ha with hold | hnew
    · exact hI.nonneg a hold
    · simp only [List.mem_singleton] at hnew
      subst hnew
      rw [hzero]

theorem inv_createAccount {db : DBState} (hI : Inv db)
    (name accountType userId : String) (r : Fin 6 → Nat) (ts : Nat) :
    Inv (createAccount db name accountType userId r ts).2 := by
  unfold createAccount
  rcases hsel : selectAccountRow (generateAccountNumber r) db.bank_accounts with _ | row
  · simp only [hsel]
    exact inv_append_fresh hI _ (selectAccountRow_eq_none.mp hsel) rfl
  · simp only [hsel]
    exact hI

theorem inv_updateAccount {db : DBState} (hI : Inv db) (n : String)
    (upd : List (String × String)) (u : String) (ts : Nat) :
    Inv (updateAccountByAccountNumber db n upd u ts).2 := by
  rcases hf : fetchAccountByAccountNumber db n u with _ | _ | account
  · unfold updateAccountByAccountNumber
    rw [hf]
    exact hI
  · unfold updateAccountByAccountNumber
    rw [hf]
    exact hI
  · rw [updateAccountByAccountNumber_state db n upd u ts account hf]
    apply inv_map_metadata hI
    · intro r
      by_cases hn : r.accountNumber = n <;> simp [hn]
    · intro r
      by_cases hn : r.accountNumber = n <;> simp [hn]

theorem controllerCreateTransaction_snd (failAt : Option WriteStep) (db : DBState)
    (n u : String) {body v : RawCreateTransactionBody} (txid : String) (ts : Nat)
    (hp : CreateTransactionRequestSchema body = some v) :
    (controllerCreateTransaction failAt db n u body txid ts).2 =
      (createTransaction failAt db (transactionDataOf n v) n u txid ts).2 := by
  unfold controllerCreateTransaction
  rw [hp]
  rcases hct : createTransaction failAt db (transactionDataOf n v) n u txid ts with ⟨out, db'⟩
  cases out <;> simp [hct]

theorem inv_step (db : DBState) (op : Op) (hI : Inv db) : Inv (step db op) := by
  cases op with
  | createAccount name accountType userId r ts =>
    exact inv_createAccount hI name accountType userId r ts
  | createTransaction n u body failAt txid ts =>
    show Inv (controllerCreateTransaction failAt db n u body txid ts).2
    rcases hp : CreateTransactionRequestSchema body with _ | v
    · simpa [controllerCreateTransaction, hp] using hI
    · rw [controllerCreateTransaction_snd failAt db n u txid ts hp]
      rcases createTransaction_spec failAt db (transactionDataOf n v) n u txid ts with
        ⟨hdb, _⟩ | ⟨_, account, nb, hfetch, hbal, heq⟩
      · rw [hdb]; exact hI
      · rw [heq]
        rcases CreateTransactionRequestSchema_some hp with ⟨hv, hmin, _⟩
        apply inv_apply_success hI account nb _ n u txid ts hfetch _ hbal
        show (0 : ℚ) < (transactionDataOf n v).amount
        have hva : (transactionDataOf n v).amount = body.amount := by
          rw [hv]
          rfl
        rw [hva]
        calc (0 : ℚ) < 1/100 := by norm_num
          _ ≤ body.amount := hmin
  | updateAccount n upd u ts =>
    exact inv_updateAccount hI n upd u ts

theorem inv_runOps (ops : List Op) : Inv (runOps ops) := by
  unfold runOps
  have h : ∀ db : DBState, Inv db → Inv (ops.foldl step db) := by
    induction ops with
    | nil => intro db hI; exact hI
    | cons op rest ih =>
      intro db hI
      exact ih (step db op) (inv_step db op hI)
  exact h emptyDB inv_emptyDB

/-! Lemmas about ledger row selection -/

theorem selectTransactionRow_eq_none {n txid : String} :
    ∀ {l : List TransactionRow},
      selectTransactionRow n txid l = none ↔
        ∀ t ∈ l, ¬(t.accountId = n ∧ t.id = txid) := by
  intro l
  induction l with
  | nil => simp [selectTransactionRow]
  | cons t l ih =>
    by_cases ht : t.accountId = n ∧ t.id = txid
    · simp [selectTransactionRow, ht]
    · simp only [selectTransactionRow, if_neg ht]
      rw [ih]
      constructor
      · intro h s hs
        rcases List.mem_cons.mp hs with rfl | hs'
        · exact ht
        · exact h s hs'
      · intro h s hs
        exact h s (List.mem_cons_of_mem t hs)

theorem selectTransactionRow_eq_some {n txid : String} :
    ∀ {l : List TransactionRow} {t : TransactionRow},
      selectTransactionRow n txid l = some t →
        t ∈ l ∧ t.accountId = n ∧ t.id = txid := by
  intro l
  induction l with
  | nil => intro t h; simp [selectTransactionRow] at h
  | cons s l ih =>
    intro t h
    by_cases hs : s.accountId = n ∧ s.id = txid
    · simp [selectTransactionRow, hs] at h
      subst h
      exact ⟨List.mem_cons_self s l, hs⟩
    · simp only [selectTransactionRow, if_neg hs] at h
      rcases ih h with ⟨hmem, hrest⟩
      exact ⟨List.mem_cons_of_mem s hmem, hrest⟩

theorem mem_selectTransactionsOfAccount {n : String} :
    ∀ {l : List TransactionRow} {t : TransactionRow},
      t ∈ selectTransactionsOfAccount n l → t ∈ l ∧ t.accountId = n := by
  intro l
  induction l with
  | nil => intro t h; simp [selectTransactionsOfAccount] at h
  | cons s l ih =>
    intro t h
    by_cases hs : s.accountId = n
    · rw [selectTransactionsOfAccount, if_pos hs] at h
      rcases List.mem_cons.mp h with rfl | h'
      · exact ⟨List.mem_cons_self t l, hs⟩
      · rcases ih h' with ⟨hmem, hacc⟩
        exact ⟨List.mem_cons_of_mem s hmem, hacc⟩
    · rw [selectTransactionsOfAccount, if_neg hs] at h
      rcases ih h with ⟨hmem, hacc⟩
      exact ⟨List.mem_cons_of_mem s hmem, hacc⟩

/-! Claim theorems -/

/-- Claim C1: for every withdrawal request on an account the caller owns
(under normal persistence), if the amount is strictly greater than the
current balance then `createTransaction` returns the insufficient-funds
outcome and the committed store — balance and ledger — is exactly the input
store; if the amount is at most the balance (including equality) it reports
success and the persisted balance of the account is the old balance minus
the amount. -/
theorem claim_C1 (db : DBState) (td : CreateTransactionRequest)
    (n u txid : String) (ts : Nat) (account : BankAccountRow)
    (hf : fetchAccountByAccountNumber db n u = .found account)
    (hty : td.type = "withdrawal") :
    (account.balance < td.amount →
      createTransaction none db td n u txid ts = (.insufficientFunds, db)) ∧
    (td.amount ≤ account.balance →
      ∃ resp db', createTransaction none db td n u txid ts = (.success resp, db') ∧
        balanceOf db' n = some (account.balance - td.amount)) := by
  have hsel := (fetchAccountByAccountNumber_found_iff.mp hf).1
  have hd : td.type ≠ "deposit" := by
    rw [hty]
    simp
  constructor
  · intro hlt
    simp [createTransaction, hf, hty, hd, hlt]
  · intro hle
    have hstep : createTransaction none db td n u txid ts =
        (.success (transactionResponseOf td u txid ts),
         ⟨applyBalanceUpdate db.bank_accounts n (account.balance - td.amount) ts,
          db.transactions ++ [ledgerRow td n u txid ts]⟩) := by
      simp [createTransaction, hf, hty, hd, not_lt.mpr hle]
    refine ⟨_, _, hstep, ?_⟩
    show ((selectAccountRow n
      (applyBalanceUpdate db.bank_accounts n (account.balance - td.amount) ts)).map
        (fun r => r.balance)) = some (account.balance - td.amount)
    rw [selectAccountRow_applyBalanceUpdate, hsel]
    rfl

/-- Witness for C1 on concrete data: in a store whose only account holds
`50.00`, a withdrawal of `60.00` is rejected with no writes, and a
withdrawal of exactly `50.00` succeeds leaving balance `0.00`. -/
theorem claim_C1_witness :
    (acct1.balance < (60 : ℚ) →
      createTransaction none db1
        { accountNumber := "01000001", amount := 60, currency := "GBP",
          type := "withdrawal", reference := none }
        "01000001" "usr-1" "tan-0000000000" 2 = (.insufficientFunds, db1)) ∧
    ((50 : ℚ) ≤ acct1.balance →
      ∃ resp db', createTransaction none db1
        { accountNumber := "01000001", amount := 50, currency := "GBP",
          type := "withdrawal", reference := none }
        "01000001" "usr-1" "tan-0000000000" 2 = (.success resp, db') ∧
        balanceOf db' "01000001" = some (acct1.balance - 50)) :=
  ⟨(claim_C1 db1
      { accountNumber := "01000001", amount := 60, currency := "GBP",
        type := "withdrawal", reference := none }
      "01000001" "usr-1" "tan-0000000000" 2 acct1 (by decide) rfl).1,
   (claim_C1 db1
      { accountNumber := "01000001", amount := 50, currency := "GBP",
        type := "withdrawal", reference := none }
      "01000001" "usr-1" "tan-0000000000" 2 acct1 (by decide) rfl).2⟩

/-- Claim C2: `createTransaction` is atomic. If it reports success, the
committed store holds exactly the new ledger record and the updated account
row, whose `updatedTimestamp` equals the ledger record's `createdTimestamp`;
for every non-success outcome — business failures and persistence failures
injected at any write step — the committed store is exactly the input
store. -/
theorem claim_C2 (failAt : Option WriteStep) (db : DBState)
    (td : CreateTransactionRequest) (n u txid : String) (ts : Nat) :
    (∀ resp db', createTransaction failAt db td n u txid ts = (.success resp, db') →
      ∃ account newBalance,
        fetchAccountByAccountNumber db n u = .found account ∧
        db' = ⟨applyBalanceUpdate db.bank_accounts n newBalance ts,
               db.transactions ++ [ledgerRow td n u txid ts]⟩ ∧
        (ledgerRow td n u txid ts).createdTimestamp = ts ∧
        selectAccountRow n db'.bank_accounts =
          some { account with balance := newBalance, updatedTimestamp := ts }) ∧
    (∀ out db', createTransaction failAt db td n u txid ts = (out, db') →
      (∀ resp, out ≠ .success resp) → db' = db) := by
  rcases createTransaction_spec failAt db td n u txid ts with
    ⟨hunch, hns⟩ | ⟨hnone, account, nb, hfetch, hbal, heqq⟩
  · constructor
    · intro resp db' hout
      exact absurd (by rw [hout]) (hns resp)
    · intro out db' hout hns2
      rw [hout] at hunch
      exact hunch
  · have hsel := (fetchAccountByAccountNumber_found_iff.mp hfetch).1
    constructor
    · intro resp db' hout
      rw [heqq] at hout
      rcases (Prod.mk.injEq _ _ _ _).mp hout with ⟨_, hdb'⟩
      refine ⟨account, nb, hfetch, hdb'.symm, rfl, ?_⟩
      rw [← hdb']
      show selectAccountRow n (applyBalanceUpdate db.bank_accounts n nb ts) = _
      rw [selectAccountRow_applyBalanceUpdate, hsel]
      rfl
    · intro out db' hout hns2
      rw [heqq] at hout
      have : out = .success (transactionResponseOf td u txid ts) :=
        (congrArg Prod.fst hout).symm
      exact absurd this (hns2 _)

/-- Witness for C2 on concrete data: a successful deposit of `10.00` commits
both writes with the shared timestamp, and a run with a persistence failure
injected at COMMIT leaves the store untouched. -/
theorem claim_C2_witness :
    (∃ account newBalance,
      fetchAccountByAccountNumber db1 "01000001" "usr-1" = .found account ∧
      (⟨applyBalanceUpdate db1.bank_accounts "01000001" 60 2,
        db1.transactions ++ [ledgerRow
          { accountNumber := "01000001", amount := 10, currency := "GBP",
            type := "deposit", reference := none } "01000001" "usr-1"
          "tan-0000000000" 2]⟩ : DBState) =
        ⟨applyBalanceUpdate db1.bank_accounts "01000001" newBalance 2,
         db1.transactions ++ [ledgerRow
          { accountNumber := "01000001", amount := 10, currency := "GBP",
            type := "deposit", reference := none } "01000001" "usr-1"
          "tan-0000000000" 2]⟩ ∧
      (ledgerRow
          { accountNumber := "01000001", amount := 10, currency := "GBP",
            type := "deposit", reference := none } "01000001" "usr-1"
          "tan-0000000000" 2).createdTimestamp = 2 ∧
      selectAccountRow "01000001"
        (applyBalanceUpdate db1.bank_accounts "01000001" 60 2 : List BankAccountRow) =
        some { account with balance := newBalance, updatedTimestamp := 2 }) ∧
    (createTransaction (some .commitTx) db1
      { accountNumber := "01000001", amount := 10, currency := "GBP",
        type := "deposit", reference := none }
      "01000001" "usr-1" "tan-0000000000" 2).2 = db1 := by
  constructor
  · have hrun : createTransaction none db1
        { accountNumber := "01000001", amount := 10, currency := "GBP",
          type := "deposit", reference := none }
        "01000001" "usr-1" "tan-0000000000" 2 =
        (.success (transactionResponseOf
          { accountNumber := "01000001", amount := 10, currency := "GBP",
            type := "deposit", reference := none } "usr-1" "tan-0000000000" 2),
         ⟨applyBalanceUpdate db1.bank_accounts "01000001" 60 2,
          db1.transactions ++ [ledgerRow
            { accountNumber := "01000001", amount := 10, currency := "GBP",
              type := "deposit", reference := none } "01000001" "usr-1"
            "tan-0000000000" 2]⟩) := by
      simp [createTransaction, fetchAccountByAccountNumber, selectAccountRow, db1, acct1]
      norm_num
    exact (claim_C2 none db1
      { accountNumber := "01000001", amount := 10, currency := "GBP",
        type := "deposit", reference := none }
      "01000001" "usr-1" "tan-0000000000" 2).1 _ _ hrun
  · rcases hrun2 : createTransaction (some .commitTx) db1
        { accountNumber := "01000001", amount := 10, currency := "GBP",
          type := "deposit", reference := none }
        "01000001" "usr-1" "tan-0000000000" 2 with ⟨out, db'⟩
    have hout : ∀ resp, out ≠ TxOutcome.success resp := by
      intro resp hc
      have := congrArg Prod.fst hrun2
      rw [hc] at this
      revert this
      simp [createTransaction, fetchAccountByAccountNumber, selectAccountRow, db1, acct1]
    have := (claim_C2 (some .commitTx) db1
      { accountNumber := "01000001", amount := 10, currency := "GBP",
        type := "deposit", reference := none }
      "01000001" "usr-1" "tan-0000000000" 2).2 out db' hrun2 hout
    exact this

/-- Claim C3: conservation. After every sequence of operations of the core
(account creation, validated transactions with arbitrary injected
persistence failures, metadata updates), every account's balance equals the
sum of its deposit ledger amounts minus the sum of its withdrawal ledger
amounts, and is never negative. -/
theorem claim_C3 (ops : List Op) (a : BankAccountRow)
    (ha : a ∈ (runOps ops).bank_accounts) :
    a.balance = sumDeposits (runOps ops).transactions a.accountNumber
      - sumWithdrawals (runOps ops).transactions a.accountNumber ∧
    0 ≤ a.balance :=
  ⟨(inv_runOps ops).conservation a ha, (inv_runOps ops).nonneg a ha⟩

/-- Witness for C3: create an account, deposit `50.00`; the resulting row has
balance `50.00`, satisfying the conservation equation. -/
theorem claim_C3_witness :
    rowC3 ∈ (runOps opsC3).bank_accounts ∧
    (rowC3.balance = sumDeposits (runOps opsC3).transactions rowC3.accountNumber
      - sumWithdrawals (runOps opsC3).transactions rowC3.accountNumber ∧
     0 ≤ rowC3.balance) := by
  have hgen : generateAccountNumber (fun _ => 1) = "01111111" := by decide
  have hmem : rowC3 ∈ (runOps opsC3).bank_accounts := by
    have h : (runOps opsC3).bank_accounts = [rowC3] := by
      simp [opsC3, runOps, step, controllerCreateTransaction, CreateTransactionRequestSchema,
        createTransaction, fetchAccountByAccountNumber, selectAccountRow, applyBalanceUpdate,
        ledgerRow, transactionDataOf, transactionResponseOf, refOrNone, emptyDB,
        createAccount, hgen, rowC3]
      norm_num
    rw [h]
    exact List.mem_singleton.mpr rfl
  exact ⟨hmem, claim_C3 opsC3 rowC3 hmem⟩

/-- Claim C4: the authorization gate. Under the PRIMARY KEY uniqueness of
account numbers, `fetchAccountByAccountNumber` returns not-found exactly when
no account carries the number, forbidden exactly when the account exists and
its owner differs from the caller, and otherwise the stored account row of
that number owned by the caller. The embedding is a pure function of the
store (the source only issues SELECT statements), so the call performs no
writes. -/
theorem claim_C4 (db : DBState) (n u : String)
    (hnd : (db.bank_accounts.map (fun a => a.accountNumber)).Nodup) :
    (fetchAccountByAccountNumber db n u = .notFound ↔
      ∀ a ∈ db.bank_accounts, a.accountNumber ≠ n) ∧
    (fetchAccountByAccountNumber db n u = .forbidden ↔
      ∃ a ∈ db.bank_accounts, a.accountNumber = n ∧ a.userId ≠ u) ∧
    (∀ account, fetchAccountByAccountNumber db n u = .found account →
      account ∈ db.bank_accounts ∧ account.accountNumber = n ∧ account.userId = u) := by
  refine ⟨?_, ?_, ?_⟩
  · rw [fetchAccountByAccountNumber_notFound_iff]
    exact selectAccountRow_eq_none
  · rw [fetchAccountByAccountNumber_forbidden_iff]
    constructor
    · rintro ⟨row, hsel, hne⟩
      rcases selectAccountRow_eq_some hsel with ⟨hmem, hnum⟩
      exact ⟨row, hmem, hnum, hne⟩
    · rintro ⟨a, ha, hnum, hne⟩
      exact ⟨a, selectAccountRow_of_mem hnd ha hnum, hne⟩
  · intro account hf
    rcases fetchAccountByAccountNumber_found_iff.mp hf with ⟨hsel, hu⟩
    rcases selectAccountRow_eq_some hsel with ⟨hmem, hnum⟩
    exact ⟨hmem, hnum, hu⟩

/-- Witness for C4 at a concrete store and caller: the single-account store
with owner `usr-1` queried by `usr-2`. -/
theorem claim_C4_witness :
    (fetchAccountByAccountNumber db1 "01000001" "usr-2" = .notFound ↔
      ∀ a ∈ db1.bank_accounts, a.accountNumber ≠ "01000001") ∧
    (fetchAccountByAccountNumber db1 "01000001" "usr-2" = .forbidden ↔
      ∃ a ∈ db1.bank_accounts, a.accountNumber = "01000001" ∧ a.userId ≠ "usr-2") ∧
    (∀ account, fetchAccountByAccountNumber db1 "01000001" "usr-2" = .found account →
      account ∈ db1.bank_accounts ∧ account.accountNumber = "01000001" ∧
        account.userId = "usr-2") :=
  claim_C4 db1 "01000001" "usr-2" (by decide)

/-- Claim C5 fails on the code: the engine never checks an upper bound on the
balance. Starting from a fresh account, two deposits of `6000.00` — each
individually accepted by the Zod amount validation — leave the persisted
balance at `12000.00`, strictly above `10000.00`. -/
theorem claim_C5_overflow :
    balanceOf (runOps opsC5) "01111111" = some 12000 ∧ ¬((12000 : ℚ) ≤ 10000) := by
  constructor
  · have hgen : generateAccountNumber (fun _ => 1) = "01111111" := by decide
    norm_num [opsC5, runOps, step, controllerCreateTransaction, CreateTransactionRequestSchema,
      createTransaction, fetchAccountByAccountNumber, selectAccountRow, applyBalanceUpdate,
      ledgerRow, transactionDataOf, transactionResponseOf, refOrNone, balanceOf, emptyDB,
      createAccount, hgen]
  · norm_num

/-- Claim C6 fails on the code: neither generator consults the store. On the
stream `1,2,3,4,5,6` the account-number generator emits `01123456`, which the
sample store already contains; `createAccount` then hits the PRIMARY KEY
violation and throws (no regeneration). The transaction-id generator emits
`tan-AAAAAAAAAA` on the all-zero stream, and `createTransaction` happily
inserts a second ledger row with an id already present in the store. -/
theorem claim_C6_collision :
    generateAccountNumber rStreamC6 = "01123456" ∧
    (∃ a ∈ db6.bank_accounts, a.accountNumber = "01123456") ∧
    (createAccount db6 "Carol" "personal" "usr-2" rStreamC6 5).1 = none ∧
    (createAccount db6 "Carol" "personal" "usr-2" rStreamC6 5).2 = db6 ∧
    generateTransactionId (fun _ => 0) = "tan-AAAAAAAAAA" ∧
    (∃ t ∈ db6b.transactions, t.id = "tan-AAAAAAAAAA") ∧
    ((createTransaction none db6b
        { accountNumber := "01123456", amount := 5, currency := "GBP",
          type := "deposit", reference := none }
        "01123456" "usr-1" "tan-AAAAAAAAAA" 7).2.transactions.filter
      (fun t => decide (t.id = "tan-AAAAAAAAAA"))).length = 2 := by
  refine ⟨by decide, by decide, by decide, by decide, by decide, by decide, ?_⟩
  have htx : (createTransaction none db6b
      { accountNumber := "01123456", amount := 5, currency := "GBP",
        type := "deposit", reference := none }
      "01123456" "usr-1" "tan-AAAAAAAAAA" 7).2.transactions =
      db6b.transactions ++ [ledgerRow
        { accountNumber := "01123456", amount := 5, currency := "GBP",
          type := "deposit", reference := none } "01123456" "usr-1"
        "tan-AAAAAAAAAA" 7] := by
    simp [createTransaction, fetchAccountByAccountNumber, selectAccountRow, db6b, acct6]
  rw [htx]
  decide

/-- Claim C7: scoped transaction lookup. When the caller owns the named
account, `fetchAccountTransactionByID` answers not-found whenever no ledger
row matches both the account number and the transaction id (in particular
when the id exists only under a different account), and any returned record
is the mapping of a stored row matching both. -/
theorem claim_C7 (db : DBState) (n txid u : String) (account : BankAccountRow)
    (hf : fetchAccountByAccountNumber db n u = .found account) :
    ((∀ t ∈ db.transactions, ¬(t.accountId = n ∧ t.id = txid)) →
      fetchAccountTransactionByID db n txid u = .notFound) ∧
    (∀ resp, fetchAccountTransactionByID db n txid u = .found resp →
      ∃ t ∈ db.transactions, t.accountId = n ∧ t.id = txid ∧
        resp = mapTransactionRow t) := by
  constructor
  · intro hnone
    unfold fetchAccountTransactionByID
    rw [hf, selectTransactionRow_eq_none.mpr hnone]
  · intro resp hfound
    unfold fetchAccountTransactionByID at hfound
    rw [hf] at hfound
    rcases hsel : selectTransactionRow n txid db.transactions with _ | row
    · rw [hsel] at hfound
      cases hfound
    · rw [hsel] at hfound
      rcases selectTransactionRow_eq_some hsel with ⟨hmem, hacc, hid⟩
      injection hfound with h
      exact ⟨row, hmem, hacc, hid, h.symm⟩

/-- Witness for C7: the store holds a ledger row with id `tan-XXXXXXXXXX`
under account `01999999`; asking for that id under the caller's account
`01000001` answers not-found. -/
theorem claim_C7_witness :
    fetchAccountByAccountNumber db7 "01000001" "usr-1" = .found acct1 ∧
    fetchAccountTransactionByID db7 "01000001" "tan-XXXXXXXXXX" "usr-1" = .notFound :=
  ⟨by decide,
   (claim_C7 db7 "01000001" "tan-XXXXXXXXXX" "usr-1" acct1 (by decide)).1 (by decide)⟩

/-- Claim C8: requests whose amount is non-positive, not a multiple of
`0.01`, or above `10000.00` are rejected by the Zod schema in the controller
before the service — and hence the balance read — runs: the outcome is the
400 validation failure and the store is returned untouched. -/
theorem claim_C8 (failAt : Option WriteStep) (db : DBState) (n u : String)
    (body : RawCreateTransactionBody) (txid : String) (ts : Nat)
    (h : body.amount ≤ 0 ∨ (body.amount * 100).den ≠ 1 ∨ 10000 < body.amount) :
    controllerCreateTransaction failAt db n u body txid ts = (.validationFailure, db) := by
  have hp : CreateTransactionRequestSchema body = none := by
    unfold CreateTransactionRequestSchema
    rw [if_neg]
    rintro ⟨h1, h2, h3, -⟩
    rcases h with ha | hb | hc
    · have hpos : (0 : ℚ) < 1/100 := by norm_num
      linarith
    · exact hb h3
    · linarith
  unfold controllerCreateTransaction
  rw [hp]

/-- Witness for C8: a deposit of `10000.01` is rejected with the store
untouched. -/
theorem claim_C8_witness :
    (((1000001/100 : ℚ)) ≤ 0 ∨ (((1000001/100 : ℚ)) * 100).den ≠ 1 ∨
      (10000 : ℚ) < ((1000001/100 : ℚ))) ∧
    controllerCreateTransaction none db1 "01000001" "usr-1"
      ⟨1000001/100, "GBP", "deposit", none⟩ "tan-0000000000" 2 =
      (.validationFailure, db1) :=
  ⟨Or.inr (Or.inr (by norm_num)),
   claim_C8 none db1 "01000001" "usr-1" ⟨1000001/100, "GBP", "deposit", none⟩
     "tan-0000000000" 2 (Or.inr (Or.inr (by norm_num)))⟩

/-- Claim C9 as stated fails on the code: the query orders only by
`createdTimestamp DESC` with no secondary key, and SQLite leaves the
relative order of rows with equal keys undefined. On the sample store with
two ledger rows sharing a timestamp, the reversed order also satisfies the
query's ordering contract, and the service then returns the entries with the
tie NOT broken by insertion order. -/
theorem claim_C9_counterexample :
    SqlOrderByCreatedDesc (selectTransactionsOfAccount "01000001" db9.transactions)
      (List.reverse (selectTransactionsOfAccount "01000001" db9.transactions)) ∧
    listAccountTransactions List.reverse db9 "01000001" "usr-1" =
      .ok [mapTransactionRow tx2, mapTransactionRow tx1] ∧
    [mapTransactionRow tx2, mapTransactionRow tx1] ≠
      [mapTransactionRow tx1, mapTransactionRow tx2] := by
  have hselect : selectTransactionsOfAccount "01000001" db9.transactions = [tx1, tx2] := by
    decide
  refine ⟨⟨?_, ?_⟩, ?_, ?_⟩
  · rw [hselect]
    exact List.Perm.swap tx2 tx1 []
  · rw [hselect]
    decide
  · decide
  · decide

/-- Claim C9 amended: for every account the caller owns and every row order
the database may choose for `ORDER BY createdTimestamp DESC` (a permutation
of the account's rows with non-increasing creation times),
`listAccountTransactions` returns exactly that account's ledger entries,
newest first; the relative order of entries sharing a creation time is not
determined by the query. -/
theorem claim_C9_amended (db : DBState) (n u : String)
    (sorter : List TransactionRow → List TransactionRow) (account : BankAccountRow)
    (hf : fetchAccountByAccountNumber db n u = .found account)
    (hsort : SqlOrderByCreatedDesc (selectTransactionsOfAccount n db.transactions)
      (sorter (selectTransactionsOfAccount n db.transactions))) :
    ∃ rows, listAccountTransactions sorter db n u = .ok (rows.map mapTransactionRow) ∧
      (selectTransactionsOfAccount n db.transactions).Perm rows ∧
      rows.Pairwise (fun a b => b.createdTimestamp ≤ a.createdTimestamp) ∧
      ∀ t ∈ rows, t ∈ db.transactions ∧ t.accountId = n := by
  refine ⟨sorter (selectTransactionsOfAccount n db.transactions), ?_, hsort.1, hsort.2, ?_⟩
  · unfold listAccountTransactions
    rw [hf]
  · intro t ht
    exact mem_selectTransactionsOfAccount ((hsort.1.mem_iff).mpr ht)

/-- Witness for C9 (amended): the identity order satisfies the query
contract on the sample store, and the listing returns both entries of the
account. -/
theorem claim_C9_witness :
    fetchAccountByAccountNumber db9 "01000001" "usr-1" = .found acct1 ∧
    SqlOrderByCreatedDesc (selectTransactionsOfAccount "01000001" db9.transactions)
      ((fun l => l) (selectTransactionsOfAccount "01000001" db9.transactions)) ∧
    ∃ rows, listAccountTransactions (fun l => l) db9 "01000001" "usr-1" =
        .ok (rows.map mapTransactionRow) ∧
      (selectTransactionsOfAccount "01000001" db9.transactions).Perm rows ∧
      rows.Pairwise (fun a b => b.createdTimestamp ≤ a.createdTimestamp) ∧
      ∀ t ∈ rows, t ∈ db9.transactions ∧ t.accountId = "01000001" := by
  have hsort : SqlOrderByCreatedDesc (selectTransactionsOfAccount "01000001" db9.transactions)
      ((fun l => l) (selectTransactionsOfAccount "01000001" db9.transactions)) := by
    constructor
    · exact List.Perm.refl _
    · decide
  exact ⟨by decide, hsort,
    claim_C9_amended db9 "01000001" "usr-1" (fun l => l) acct1 (by decide) hsort⟩

/-- Claim C10: frame of `updateAccountByAccountNumber` for an authorized
call. The ledger is untouched; the target row takes its `name` and
`accountType` from the last matching payload entries (keeping them when no
such entry exists) and its `updatedTimestamp` is set to the fresh timestamp
unconditionally — the `setClauses.length === 0` early return is unreachable
because the timestamp clause has already been appended — while
`balance`, `accountNumber`, `sortCode`, `currency`, `userId` and
`createdTimestamp` are untouched and every other row is unchanged; payload
keys other than `name`/`accountType` are ignored: filtering them out leaves
the whole call's result unchanged. -/
theorem claim_C10 (db : DBState) (n : String) (upd : List (String × String))
    (u : String) (ts : Nat) (account : BankAccountRow)
    (hf : fetchAccountByAccountNumber db n u = .found account) :
    (updateAccountByAccountNumber db n upd u ts).2.transactions = db.transactions ∧
    (updateAccountByAccountNumber db n upd u ts).2.bank_accounts =
      db.bank_accounts.map (fun r =>
        if r.accountNumber = n then
          { r with
            name := lastNameClause (nameTypeClauses upd) r.name
            accountType := lastAccountTypeClause (nameTypeClauses upd) r.accountType
            updatedTimestamp := ts }
        else r) ∧
    updateAccountByAccountNumber db n upd u ts =
      updateAccountByAccountNumber db n
        (upd.filter (fun kv => decide (kv.1 = "name" ∨ kv.1 = "accountType"))) u ts := by
  refine ⟨?_, ?_, ?_⟩
  · rw [updateAccountByAccountNumber_state db n upd u ts account hf]
  · rw [updateAccountByAccountNumber_state db n upd u ts account hf]
  · unfold updateAccountByAccountNumber
    rw [nameTypeClauses_filter]

/-- Witness for C10: an authorized update whose payload holds only alien keys
(`balance`, `foo`) leaves name, accountType, balance and the ledger exactly
as they were, refreshes `updatedTimestamp` to `9`, and equals the call with
the alien keys filtered away. -/
theorem claim_C10_witness :
    fetchAccountByAccountNumber db1 "01000001" "usr-1" = .found acct1 ∧
    ((updateAccountByAccountNumber db1 "01000001" [("balance", "999"), ("foo", "bar")]
        "usr-1" 9).2.transactions = db1.transactions ∧
     (updateAccountByAccountNumber db1 "01000001" [("balance", "999"), ("foo", "bar")]
        "usr-1" 9).2.bank_accounts =
       db1.bank_accounts.map (fun r =>
         if r.accountNumber = "01000001" then
           { r with
             name := lastNameClause
               (nameTypeClauses [("balance", "999"), ("foo", "bar")]) r.name
             accountType := lastAccountTypeClause
               (nameTypeClauses [("balance", "999"), ("foo", "bar")]) r.accountType
             updatedTimestamp := 9 }
         else r) ∧
     updateAccountByAccountNumber db1 "01000001" [("balance", "999"), ("foo", "bar")]
        "usr-1" 9 =
       updateAccountByAccountNumber db1 "01000001"
         ([("balance", "999"), ("foo", "bar")].filter
           (fun kv => decide (kv.1 = "name" ∨ kv.1 = "accountType"))) "usr-1" 9) :=
  ⟨by decide,
   claim_C10 db1 "01000001" [("balance", "999"), ("foo", "bar")] "usr-1" 9 acct1 (by decide)⟩

end EagleBank
